import Mathlib

/-!
Verification development for the mcp-mssql `DatabaseService` core
(src/server.ts, src/config.js, src/errors.ts).

The TypeScript code is shallowly embedded: every external effect (the SQL
parser, the driver execution, the clock, the jitter of `Math.random`) is an
explicit input, and each operation becomes a pure function returning
`Except MssqlMcpError _` for the `throw` paths of the source.  String
manipulation is modelled on `List Char` (`String.data`) so that every
definition evaluates by kernel reduction; the char-level helpers below mirror
the JavaScript semantics of `toLowerCase`, `trim`, `includes` and
single-character `split`.
-/

deriving instance DecidableEq for Except

namespace McpMssql

/-! ## Char-level string primitives (JavaScript semantics) -/

/-- JavaScript `String.prototype.toLowerCase` (ASCII range, which is all the
source ever feeds it). -/
def strLower (s : String) : String :=
  String.mk (s.data.map Char.toLower)

/-- JavaScript `String.prototype.trim`: strip leading and trailing
whitespace. -/
def trimChars (l : List Char) : List Char :=
  ((l.dropWhile Char.isWhitespace).reverse.dropWhile Char.isWhitespace).reverse

/-- `trim` on strings. -/
def strTrim (s : String) : String :=
  String.mk (trimChars s.data)

/-- Is `pat` a contiguous infix of `l`?  Boolean form of `List.IsInfix`. -/
def isInfixB (pat : List Char) : List Char → Bool
  | [] => pat.isEmpty
  | c :: cs => pat.isPrefixOf (c :: cs) || isInfixB pat cs

/-- JavaScript `String.prototype.includes`. -/
def strContains (s pat : String) : Bool :=
  isInfixB pat.data s.data

/-- Auxiliary state machine for single-character `split`. -/
def splitCharAux (sep : Char) : List Char → List Char → List String
  | [], acc => [String.mk acc.reverse]
  | c :: cs, acc =>
    if c = sep then String.mk acc.reverse :: splitCharAux sep cs []
    else splitCharAux sep cs (c :: acc)

/-- JavaScript `String.prototype.split` with a single-character separator:
`"".split(",") = [""]`, `",".split(",") = ["", ""]`. -/
def splitChar (sep : Char) (s : String) : List String :=
  splitCharAux sep s.data []

def insertLe (le : α → α → Bool) (a : α) : List α → List α
  | [] => [a]
  | b :: bs => if le a b then a :: b :: bs else b :: insertLe le a bs

def sortLe (le : α → α → Bool) (l : List α) : List α :=
  l.foldr (insertLe le) []

/-- `ErrorType` enum from src/errors.ts. -/
inductive ErrorType
  | UNKNOWN_ERROR
  | CONNECTION_ERROR
  | CONNECTION_TIMEOUT
  | QUERY_ERROR
  | STORED_PROCEDURE_ERROR
  | SCHEMA_ERROR
  | VALIDATION_ERROR
  | PERMISSION_ERROR
  | DATABASE_ERROR
  | SQL_PARSER_ERROR
  deriving DecidableEq, Repr

/-- Values stored in the free-form `details` map of a structured error. -/
inductive DetailValue
  | str (s : String)
  | nat (n : Nat)
  | strList (l : List String)
  deriving DecidableEq, Repr

/-- `MssqlMcpError` from src/errors.ts: message, kind tag, detail map.
The wrapped `originalError` is represented by its message inside `details`
where the source records it (the claims only inspect message, kind and
details). -/
structure MssqlMcpError where
  message : String
  errorType : ErrorType
  details : List (String × DetailValue) := []
  deriving DecidableEq, Repr

/-! ## Configuration (src/config.js resolved into the SqlConfig shape the
service consumes; fields not read by the modelled code paths are omitted) -/

structure SqlConfig where
  user : String
  password : String
  server : String
  database : String
  maxRetries : Nat
  initialRetryDelay : Nat
  maxRetryDelay : Nat
  schemaCacheTTL : Int
  allowedDatabases : List String
  deriving DecidableEq, Repr

/-- src/config.js line 29:
`allowedDatabases: (process.env.SQL_ALLOWED_DATABASES || "").split(",").filter(Boolean)`.
`none` models an unset environment variable; `Boolean` is falsy exactly on the
empty string. -/
def allowedDatabasesOf (envVar : Option String) : List String :=
  (splitChar ',' (envVar.getD "")).filter (fun s => s ≠ "")

/-! ## SQL parameter type mapping (DatabaseService.sqlDataTypeMap and
DatabaseService.mapStringToSqlType, src/server.ts lines 1253-1307) -/

/-- The `mssql` type factory objects the map can produce. -/
inductive SqlTypeFactory
  | BigInt
  | Binary
  | Bit
  | Char
  | Date
  | DateTime
  | DateTime2
  | DateTimeOffset
  | Decimal
  | Float
  | Geography
  | Geometry
  | Image
  | Int
  | Money
  | NChar
  | NText
  | Numeric
  | NVarChar
  | Real
  | SmallDateTime
  | SmallInt
  | SmallMoney
  | Text
  | Time
  | TinyInt
  | TVP
  | UniqueIdentifier
  | VarBinary
  | VarChar
  | Variant
  | Xml
  deriving DecidableEq, Repr

/-- The fixed lookup table, in source order (a JavaScript `Map` keyed by
distinct strings, so association-list lookup is exact). -/
def sqlDataTypeMap : List (String × SqlTypeFactory) :=
  [("bigint", .BigInt),
   ("binary", .Binary),
   ("bit", .Bit),
   ("char", .Char),
   ("date", .Date),
   ("datetime", .DateTime),
   ("datetime2", .DateTime2),
   ("datetimeoffset", .DateTimeOffset),
   ("decimal", .Decimal),
   ("float", .Float),
   ("geography", .Geography),
   ("geometry", .Geometry),
   ("image", .Image),
   ("int", .Int),
   ("money", .Money),
   ("nchar", .NChar),
   ("ntext", .NText),
   ("numeric", .Numeric),
   ("nvarchar", .NVarChar),
   ("real", .Real),
   ("smalldatetime", .SmallDateTime),
   ("smallint", .SmallInt),
   ("smallmoney", .SmallMoney),
   ("text", .Text),
   ("time", .Time),
   ("tinyint", .TinyInt),
   ("tvp", .TVP),
   ("uniqueidentifier", .UniqueIdentifier),
   ("varbinary", .VarBinary),
   ("varchar", .VarChar),
   ("variant", .Variant),
   ("xml", .Xml),
   ("string", .NVarChar),
   ("number", .Int),
   ("boolean", .Bit)]

/-- `DatabaseService.mapStringToSqlType`: normalize with
`toLowerCase().trim()`, look up, default to `NVarChar` (a logged warning, not
an error) when the name is unknown. -/
def mapStringToSqlType (typeName : String) : SqlTypeFactory :=
  let normalizedTypeName := strTrim (strLower typeName)
  match sqlDataTypeMap.lookup normalizedTypeName with
  | some sqlTypeFactory => sqlTypeFactory
  | none => .NVarChar

/-- One inter-attempt backoff delay, exactly the expression at src/server.ts
lines 1559-1562. -/
def retryDelay (cfg : SqlConfig) (attempt : Nat) (jitter : ℚ) : ℚ :=
  min ((cfg.initialRetryDelay : ℚ) * 2 ^ attempt + jitter) (cfg.maxRetryDelay : ℚ)

/-- Observable trace of a `getPool` run in which every connect attempt
fails: how many connect attempts were made, the sleeps between them, and the
error finally thrown. -/
structure PoolFailTrace where
  attempts : Nat
  delays : List ℚ
  finalError : MssqlMcpError
  deriving DecidableEq, Repr

/-- `getPool` under an always-failing connection; `errMsg i` is the message
of the failure of the `i`-th (0-indexed) connect attempt. -/
def getPoolAllFail (cfg : SqlConfig) (jitter : Nat → ℚ) (errMsg : Nat → String)
    (currentAttempt : Nat) : PoolFailTrace :=
  if currentAttempt < cfg.maxRetries - 1 then
    let d := retryDelay cfg currentAttempt (jitter currentAttempt)
    let rest := getPoolAllFail cfg jitter errMsg (currentAttempt + 1)
    { attempts := rest.attempts + 1
      delays := d :: rest.delays
      finalError := rest.finalError }
  else
    { attempts := 1
      delays := []
      finalError :=
        { message := "DatabaseService: Failed to connect to database after " ++
              toString cfg.maxRetries ++ " attempts. Last error: " ++ errMsg currentAttempt
          errorType := .CONNECTION_ERROR
          details := [("attempts", .nat cfg.maxRetries)] } }
termination_by cfg.maxRetries - currentAttempt
decreasing_by omega

/-! ## Shared validation helpers of the data operations (src/server.ts) -/

/-- JavaScript `rawDatabaseArg || this.sqlConfig.database` (the schema
resource handler performs the same defaulting at src/server.ts line 128
before calling `getSchema`): `undefined` and the empty string both fall back
to the configured default database. -/
def resolveTargetDb (cfg : SqlConfig) (raw : Option String) : String :=
  match raw with
  | none => cfg.database
  | some s => if s = "" then cfg.database else s

/-- The whitelist guard shared by all three operations:
`allowedDatabases && allowedDatabases.length > 0 && !allowedDatabases.includes(target)`. -/
def whitelistViolation (cfg : SqlConfig) (target : String) : Bool :=
  !cfg.allowedDatabases.isEmpty && !cfg.allowedDatabases.contains target

/-- Character class of the database-name guard
`/^[a-zA-Z0-9_\-\s\[\]]+$/` used before a `USE [...]` context switch. -/
def isDbNameChar (c : Char) : Bool :=
  c.isAlpha || c.isDigit || c = '_' || c = '-' || c.isWhitespace || c = '[' || c = ']'

/-- The full-string match of that regular expression (at least one character,
all from the class). -/
def validDbNameFormat (s : String) : Bool :=
  !s.data.isEmpty && s.data.all isDbNameChar

/-! ## executeQuery (src/server.ts lines 1734-1901) -/

/-- A top-level statement of the parsed AST; only its `type` tag is ever
inspected (`node-sql-parser` tags `WITH ... SELECT` forms as `select`). -/
structure SqlStatement where
  type : String
  deriving DecidableEq, Repr

/-- Outcome of `parser.astify(query, \x7b database: "transactsql" \x7d)`: a
thrown parse error, or the statement list (the source normalizes a single
statement object to a one-element array before inspecting it). -/
inductive ParseOutcome
  | failure (msg : String)
  | success (stmts : List SqlStatement)
  deriving DecidableEq, Repr

/-- A cell value of a driver recordset row. -/
inductive SqlValue
  | null
  | bool (b : Bool)
  | int (n : Int)
  | str (s : String)
  deriving DecidableEq, Repr

/-- Column metadata entry of `recordset.columns` (name and column index). -/
structure ColumnMeta where
  index : Nat
  name : String
  deriving DecidableEq, Repr

/-- A driver recordset: rows are ordered key/value objects; `columns` is the
column-metadata map when the driver supplies one. -/
structure Recordset where
  rows : List (List (String × SqlValue))
  columns : Option (List ColumnMeta)
  deriving DecidableEq, Repr

/-- Success shape returned by `executeQuery`. -/
structure QueryResult where
  columns : List String
  rows : List (List SqlValue)
  recordCount : Nat
  deriving DecidableEq, Repr

/-- `colArray.sort((a, b) => a.index - b.index)`: stable sort by column
index. -/
def sortColumnsByIndex (cols : List ColumnMeta) : List ColumnMeta :=
  sortLe (fun a b => a.index ≤ b.index) cols

/-- Result shaping of src/server.ts lines 1817-1852: non-empty recordset →
keys of the first row as columns, positional values as rows; empty recordset
→ empty rows with the metadata columns ordered by index; no recordset at all
→ the empty success record. -/
def shapeQueryResult (recordset : Option Recordset) : QueryResult :=
  match recordset with
  | some rs =>
    match rs.rows with
    | r0 :: rest =>
      { columns := r0.map Prod.fst
        rows := (r0 :: rest).map (fun row => row.map Prod.snd)
        recordCount := (r0 :: rest).length }
    | [] =>
      let columnNames : List String :=
        match rs.columns with
        | some cols => (sortColumnsByIndex cols).map ColumnMeta.name
        | none => []
      { columns := columnNames, rows := [], recordCount := 0 }
  | none => { columns := [], rows := [], recordCount := 0 }

/-- The blocked-substring list of src/server.ts lines 1797-1803, checked
against the lowercased query text. -/
def blockedKeywords : List String :=
  ["exec ", "execute ", "sp_", "xp_", "reconfigure", "waitfor delay"]

def hasBlockedKeyword (query : String) : Bool :=
  blockedKeywords.any (fun k => strContains (strLower query) k)

/-- External inputs of one `executeQuery` call: the parser outcome on this
text and the recordset the driver produces when execution is reached (this
model covers the driver-success path; driver failures are classified by
`classifyQueryFailure` below). -/
structure QueryEnv where
  parse : ParseOutcome
  recordset : Option Recordset
  deriving DecidableEq, Repr

/-- `DatabaseService.executeQuery` (src/server.ts lines 1734-1852), with the
pool obtained and the `USE` batch succeeding when the context switch is
reached.  The guards appear in source order: whitelist, database-name format,
empty text, parse, statement-type restriction, blocked substrings,
execution and shaping. -/
def queryWhitelistError (cfg : SqlConfig) (target : String) : MssqlMcpError :=
  { message := "Access to database " ++ target ++
        " is not allowed. Allowed databases: " ++
        String.intercalate ", " cfg.allowedDatabases
    errorType := .PERMISSION_ERROR
    details := [("database", .str target),
                ("allowed", .strList cfg.allowedDatabases)] }

/-- The statement-type rejection of src/server.ts lines 1787-1794, naming
the offending statement kind in `details.queryType`. -/
def selectOnlyError (query queryType : String) : MssqlMcpError :=
  { message := "DatabaseService: Only SELECT queries are allowed. DELETE, INSERT, UPDATE, and other DML/DDL operations are not permitted."
    errorType := .VALIDATION_ERROR
    details := [("query", .str query), ("queryType", .str queryType)] }

/-- The blocked-substring rejection of src/server.ts lines 1797-1810. -/
def blockedKeywordError (query : String) : MssqlMcpError :=
  { message := "DatabaseService: Potentially unsafe query detected. Stored procedures, system procedures, and waitfor delay are not allowed in direct queries. Use the execute_StoredProcedure tool for stored procedures."
    errorType := .VALIDATION_ERROR
    details := [("query", .str query)] }

def executeQuery (cfg : SqlConfig) (env : QueryEnv) (query : String)
    (rawDatabaseArg : Option String) : Except MssqlMcpError QueryResult :=
  let targetDatabase := resolveTargetDb cfg rawDatabaseArg
  if whitelistViolation cfg targetDatabase then
    .error (queryWhitelistError cfg targetDatabase)
  else if targetDatabase ≠ cfg.database ∧ validDbNameFormat targetDatabase = false then
    .error
      { message := "DatabaseService: Invalid database name format: " ++ targetDatabase
        errorType := .VALIDATION_ERROR
        details := [("database", .str targetDatabase)] }
  else if strTrim query = "" then
    .error
      { message := "DatabaseService: Query cannot be empty"
        errorType := .VALIDATION_ERROR
        details := [("query", .str query)] }
  else
    match env.parse with
    | .failure msg =>
      .error
        { message := "DatabaseService: Invalid SQL syntax: " ++ msg
          errorType := .SQL_PARSER_ERROR
          details := [("query", .str query)] }
    | .success stmts =>
      match stmts.find? (fun q => q.type ≠ "select") with
      | some q => .error (selectOnlyError query q.type)
      | none =>
        if hasBlockedKeyword query then
          .error (blockedKeywordError query)
        else
          .ok (shapeQueryResult env.recordset)

/-! ## getSchema and the schema cache (src/server.ts lines 1579-1732) -/

structure ColumnSchema where
  name : String
  type : String
  nullable : Bool
  primary : Bool
  deriving DecidableEq, Repr

structure TableSchema where
  schema : String
  name : String
  fullName : String
  columns : List ColumnSchema
  deriving DecidableEq, Repr

/-- One entry of `schemaCache`: capture timestamp (ms) and the fetched table
list. -/
structure CacheEntry where
  timestamp : Int
  data : List TableSchema
  deriving DecidableEq, Repr

/-- The `schemaCache` JavaScript `Map`, as an insertion-ordered association
list with unique keys. -/
abbrev SchemaCache := List (String × CacheEntry)

/-- JavaScript `Map.prototype.get`. -/
def cacheGet (cache : SchemaCache) (k : String) : Option CacheEntry :=
  cache.lookup k

/-- JavaScript `Map.prototype.set`: replace in place when the key exists,
append otherwise. -/
def cacheSet (cache : SchemaCache) (k : String) (v : CacheEntry) : SchemaCache :=
  if cache.any (fun p => p.1 = k) then
    cache.map (fun p => if p.1 = k then (k, v) else p)
  else
    cache ++ [(k, v)]

/-- Observable outcome of one `getSchema` call: the returned value or thrown
error, the cache afterwards, and how many metadata fetches were run. -/
structure GetSchemaOutcome where
  result : Except MssqlMcpError (List TableSchema)
  cache : SchemaCache
  fetches : Nat
  deriving DecidableEq, Repr

/-- The fetch-and-store tail of `getSchema` (src/server.ts lines 1604-1690),
entered when no valid cache entry exists: pool obtained, context switch
validated when `dbIdentifier` differs from the default, then one metadata
query whose assembled table list is the explicit input `fetched` (the
row-to-table assembly loop is deterministic shaping of driver rows; no claim
inspects it) and which is stored with the current time `tStore`. -/
def getSchemaFetch (cfg : SqlConfig) (cache : SchemaCache) (tStore : Int)
    (fetched : List TableSchema) (dbIdentifier : String) : GetSchemaOutcome :=
  if dbIdentifier ≠ cfg.database ∧ validDbNameFormat dbIdentifier = false then
    { result := .error
        { message := "DatabaseService: Invalid database name format for schema: " ++ dbIdentifier
          errorType := .VALIDATION_ERROR
          details := [("database", .str dbIdentifier)] }
      cache := cache
      fetches := 0 }
  else
    { result := .ok fetched
      cache := cacheSet cache dbIdentifier { timestamp := tStore, data := fetched }
      fetches := 1 }

/-- `DatabaseService.getSchema` (src/server.ts lines 1579-1690) on the
driver-success path: whitelist, then the cache freshness test
`Date.now() - cachedSchema.timestamp < schemaCacheTTL` read at time
`tCheck`, then fetch-and-store at time `tStore`. -/
def schemaWhitelistError (cfg : SqlConfig) (target : String) : MssqlMcpError :=
  { message := "Access to schema for database " ++ target ++
        " is not allowed. Allowed databases: " ++
        String.intercalate ", " cfg.allowedDatabases
    errorType := .PERMISSION_ERROR
    details := [("database", .str target),
                ("allowed", .strList cfg.allowedDatabases)] }

def getSchema (cfg : SqlConfig) (cache : SchemaCache) (tCheck tStore : Int)
    (fetched : List TableSchema) (dbIdentifier : String) : GetSchemaOutcome :=
  if whitelistViolation cfg dbIdentifier then
    { result := .error (schemaWhitelistError cfg dbIdentifier)
      cache := cache
      fetches := 0 }
  else
    match cacheGet cache dbIdentifier with
    | some cachedSchema =>
      if tCheck - cachedSchema.timestamp < cfg.schemaCacheTTL then
        { result := .ok cachedSchema.data, cache := cache, fetches := 0 }
      else
        getSchemaFetch cfg cache tStore fetched dbIdentifier
    | none => getSchemaFetch cfg cache tStore fetched dbIdentifier

/-! ## executeStoredProcedure (src/server.ts lines 1903-2028) -/

/-- Character class of the procedure-name guard
`/^([a-zA-Z0-9_]+\.)?[a-zA-Z0-9_]+$/`. -/
def isProcIdentChar (c : Char) : Bool :=
  c.isAlpha || c.isDigit || c = '_'

/-- Full-string match of that regular expression: a bare identifier or one
dot-separated qualifier followed by an identifier, both non-empty and built
from `[a-zA-Z0-9_]` only. -/
def validProcedureNameFormat (s : String) : Bool :=
  match splitChar '.' s with
  | [p] => !p.data.isEmpty && p.data.all isProcIdentChar
  | [p, q] => (!p.data.isEmpty && p.data.all isProcIdentChar) &&
      (!q.data.isEmpty && q.data.all isProcIdentChar)
  | _ => false

/-- A caller-supplied stored-procedure parameter (`value` is optional in the
source and never validated, so it is irrelevant here and carried as-is). -/
structure ProcParam where
  name : String
  type : String
  value : SqlValue
  deriving DecidableEq, Repr

/-- `paramName.replace('@', '')` applied to
`param.name.startsWith('@') ? param.name : '@' + param.name`: net effect is
stripping one leading `@` when present. -/
def bindingName (name : String) : String :=
  match name.data with
  | '@' :: rest => String.mk rest
  | _ => name

/-- Success shapes returned by `executeStoredProcedure`
(src/server.ts lines 1962-1979). -/
inductive SpResult
  | records (columns : List String) (rows : List (List SqlValue)) (recordCount : Nat)
      (outputParameters : List (String × SqlValue)) (returnValue : Int)
      (rowsAffected : List Nat)
  | message (text : String) (outputParameters : List (String × SqlValue))
      (returnValue : Int) (rowsAffected : List Nat) (recordCount : Nat)
  deriving DecidableEq, Repr

/-- External inputs of one `executeStoredProcedure` call: what the driver
`request.execute(procedure)` produces when reached. -/
structure SpEnv where
  recordset : Option Recordset
  output : List (String × SqlValue)
  returnValue : Int
  rowsAffected : List Nat
  deriving DecidableEq, Repr

/-- `DatabaseService.executeStoredProcedure` (src/server.ts lines 1903-1979)
on the driver-success path, guards in source order: whitelist, database-name
format, empty name, name format, per-parameter name/type presence, then
execution and shaping.  There is no blocked-substring filter anywhere in
this pipeline. -/
def spWhitelistError (cfg : SqlConfig) (target procedure : String) : MssqlMcpError :=
  { message := "Access to database " ++ target ++
        " is not allowed for stored procedure execution. Allowed databases: " ++
        String.intercalate ", " cfg.allowedDatabases
    errorType := .PERMISSION_ERROR
    details := [("database", .str target),
                ("allowed", .strList cfg.allowedDatabases),
                ("procedure", .str procedure)] }

def executeStoredProcedure (cfg : SqlConfig) (env : SpEnv) (procedure : String)
    (parameters : List ProcParam) (rawDatabaseArg : Option String) :
    Except MssqlMcpError SpResult :=
  let targetDatabase := resolveTargetDb cfg rawDatabaseArg
  if whitelistViolation cfg targetDatabase then
    .error (spWhitelistError cfg targetDatabase procedure)
  else if targetDatabase ≠ cfg.database ∧ validDbNameFormat targetDatabase = false then
    .error
      { message := "DatabaseService: Invalid database name format: " ++ targetDatabase
        errorType := .VALIDATION_ERROR
        details := [("database", .str targetDatabase)] }
  else if strTrim procedure = "" then
    .error
      { message := "DatabaseService: Procedure name cannot be empty"
        errorType := .VALIDATION_ERROR
        details := [("procedure", .str procedure)] }
  else if validProcedureNameFormat procedure = false then
    .error
      { message := "DatabaseService: Invalid procedure name format. Use schema.procedure_name"
        errorType := .VALIDATION_ERROR
        details := [("procedure", .str procedure)] }
  else
    match parameters.find? (fun p => p.name = "" ∨ p.type = "") with
    | some param =>
      .error
        { message := "DatabaseService: Each parameter must have a name and type"
          errorType := .VALIDATION_ERROR
          details := [("parameterName", .str param.name)] }
    | none =>
      match env.recordset with
      | some rs =>
        match rs.rows with
        | r0 :: rest =>
          .ok (.records (r0.map Prod.fst)
            ((r0 :: rest).map (fun row => row.map Prod.snd))
            (r0 :: rest).length env.output env.returnValue env.rowsAffected)
        | [] =>
          .ok (.message "Stored procedure executed successfully, but returned no records"
            env.output env.returnValue env.rowsAffected 0)
      | none =>
        .ok (.message "Stored procedure executed successfully, but returned no records"
          env.output env.returnValue env.rowsAffected 0)

/-! ## Failure classification and self-healing pool rebuild
(the `catch` blocks of the three operations: src/server.ts lines 1853-1900
for executeQuery, 1691-1731 for getSchema, 1980-2027 for
executeStoredProcedure), for a driver failure that is a plain `Error` (not an
already-classified `MssqlMcpError`).  `MssqlMcpError.fromError` on a plain
error keeps the message, applies the given kind and merges the given details
(its captured stack trace carries no information this model tracks). -/

/-- A raw driver error: its message and optional `code` property. -/
structure ErrorInput where
  message : String
  code : Option String
  deriving DecidableEq, Repr

/-- What one `catch` block does: the structured error finally thrown, whether
`closePool()` was invoked, and how many `getPool()` rebuild attempts ran. -/
structure RecoveryOutcome where
  error : MssqlMcpError
  poolClosed : Bool
  rebuildAttempts : Nat
  deriving DecidableEq, Repr

/-- `query.length > 100 ? query.substring(0, 100) + "..." : query`. -/
def truncateQuery (query : String) : String :=
  if query.data.length > 100 then String.mk (query.data.take 100) ++ "..." else query

/-- The connection-indicative test shared by all three `catch` blocks:
`errorMessage.includes("connect") || errorMessage.includes("failed to connect") || error.code === "ESOCKET"`. -/
def connectionIndicative (e : ErrorInput) : Bool :=
  strContains (strLower e.message) "connect" ||
  strContains (strLower e.message) "failed to connect" ||
  e.code = some "ESOCKET"

/-- The `catch` block of `executeQuery` (src/server.ts lines 1859-1895). -/
def classifyQueryFailure (query database : String) (e : ErrorInput)
    (rebuild : Except MssqlMcpError Unit) : RecoveryOutcome :=
  let errorMessage := strLower e.message
  let qd : List (String × DetailValue) := [("query", .str (truncateQuery query))]
  if strContains errorMessage "invalid sql syntax" then
    ⟨⟨e.message, .SQL_PARSER_ERROR, qd⟩, false, 0⟩
  else if strContains errorMessage "permission" then
    ⟨⟨e.message, .PERMISSION_ERROR, qd⟩, false, 0⟩
  else if strContains errorMessage "constraint" then
    ⟨⟨e.message, .VALIDATION_ERROR, qd⟩, false, 0⟩
  else if strContains errorMessage "timeout" then
    ⟨⟨e.message, .CONNECTION_TIMEOUT, qd⟩, false, 0⟩
  else if strContains errorMessage "only select queries are allowed" then
    ⟨⟨e.message, .VALIDATION_ERROR, qd⟩, false, 0⟩
  else if strContains errorMessage "invalid database name format" then
    ⟨⟨e.message, .VALIDATION_ERROR, qd⟩, false, 0⟩
  else if strContains errorMessage "query cannot be empty" then
    ⟨⟨e.message, .VALIDATION_ERROR, qd⟩, false, 0⟩
  else if strContains errorMessage "potentially unsafe query detected" then
    ⟨⟨e.message, .VALIDATION_ERROR, qd⟩, false, 0⟩
  else if connectionIndicative e then
    match rebuild with
    | .ok _ => ⟨⟨e.message, .CONNECTION_ERROR, qd⟩, true, 1⟩
    | .error reconnectError =>
      ⟨⟨"Operation executeQuery for database " ++ database ++
            " failed due to an initial connection error, and the subsequent attempt to re-establish the connection also failed."
        , .CONNECTION_ERROR
        , [("database", .str database),
           ("operation", .str "executeQuery"),
           ("query", .str (truncateQuery query)),
           ("originalErrorMsg", .str e.message),
           ("details", .str ("Reconnect attempt failed after initial failure of executeQuery. Original error: " ++
              (e.message ++ (". Reconnect error: " ++ reconnectError.message))))]⟩
        , true, 1⟩
  else ⟨⟨e.message, .QUERY_ERROR, qd⟩, false, 0⟩

/-- The `catch` block of `getSchema` (src/server.ts lines 1691-1731). -/
def classifySchemaFailure (database : String) (e : ErrorInput)
    (rebuild : Except MssqlMcpError Unit) : RecoveryOutcome :=
  let errorMessage := strLower e.message
  let dd : List (String × DetailValue) := [("database", .str database)]
  if strContains errorMessage "invalid database name format" then
    ⟨⟨e.message, .VALIDATION_ERROR, dd⟩, false, 0⟩
  else if connectionIndicative e then
    match rebuild with
    | .ok _ => ⟨⟨e.message, .CONNECTION_ERROR, dd⟩, true, 1⟩
    | .error reconnectError =>
      ⟨⟨"Operation getSchema for database " ++ database ++
            " failed due to an initial connection error, and the subsequent attempt to re-establish the connection also failed."
        , .CONNECTION_ERROR
        , [("database", .str database),
           ("operation", .str "getSchema"),
           ("originalErrorMsg", .str e.message),
           ("details", .str ("Reconnect attempt failed after initial failure of getSchema. Original error: " ++
              (e.message ++ (". Reconnect error: " ++ reconnectError.message))))]⟩
        , true, 1⟩
  else ⟨⟨e.message, .SCHEMA_ERROR, dd⟩, false, 0⟩

/-- The `catch` block of `executeStoredProcedure`
(src/server.ts lines 1986-2022). -/
def classifySpFailure (procedure database : String) (e : ErrorInput)
    (rebuild : Except MssqlMcpError Unit) : RecoveryOutcome :=
  let errorMessage := strLower e.message
  let pd : List (String × DetailValue) := [("procedure", .str procedure)]
  if strContains errorMessage "syntax error" then
    ⟨⟨e.message, .SQL_PARSER_ERROR, pd⟩, false, 0⟩
  else if strContains errorMessage "permission" then
    ⟨⟨e.message, .PERMISSION_ERROR, pd⟩, false, 0⟩
  else if strContains errorMessage "constraint" then
    ⟨⟨e.message, .VALIDATION_ERROR, pd⟩, false, 0⟩
  else if strContains errorMessage "timeout" then
    ⟨⟨e.message, .CONNECTION_TIMEOUT, pd⟩, false, 0⟩
  else if strContains errorMessage "invalid database name format" then
    ⟨⟨e.message, .VALIDATION_ERROR, pd⟩, false, 0⟩
  else if strContains errorMessage "procedure name cannot be empty" then
    ⟨⟨e.message, .VALIDATION_ERROR, pd⟩, false, 0⟩
  else if strContains errorMessage "invalid procedure name format" then
    ⟨⟨e.message, .VALIDATION_ERROR, pd⟩, false, 0⟩
  else if strContains errorMessage "each parameter must have a name and type" then
    ⟨⟨e.message, .VALIDATION_ERROR, pd⟩, false, 0⟩
  else if connectionIndicative e then
    match rebuild with
    | .ok _ => ⟨⟨e.message, .CONNECTION_ERROR, pd⟩, true, 1⟩
    | .error reconnectError =>
      ⟨⟨"Operation executeStoredProcedure for database " ++ database ++
            " (procedure: " ++ procedure ++
            ") failed due to an initial connection error, and the subsequent attempt to re-establish the connection also failed."
        , .CONNECTION_ERROR
        , [("database", .str database),
           ("operation", .str "executeStoredProcedure"),
           ("procedure", .str procedure),
           ("originalErrorMsg", .str e.message),
           ("details", .str ("Reconnect attempt failed after initial failure of executeStoredProcedure. Original error: " ++
              (e.message ++ (". Reconnect error: " ++ reconnectError.message))))]⟩
        , true, 1⟩
  else ⟨⟨e.message, .STORED_PROCEDURE_ERROR, pd⟩, false, 0⟩

/-- Disjunction of the guards the `executeQuery` catch block tests before
its connection-indicative test; the connect branch is reached exactly when
these are all false and `connectionIndicative` holds. -/
def queryPreGuards (e : ErrorInput) : Bool :=
  strContains (strLower e.message) "invalid sql syntax" ||
  strContains (strLower e.message) "permission" ||
  strContains (strLower e.message) "constraint" ||
  strContains (strLower e.message) "timeout" ||
  strContains (strLower e.message) "only select queries are allowed" ||
  strContains (strLower e.message) "invalid database name format" ||
  strContains (strLower e.message) "query cannot be empty" ||
  strContains (strLower e.message) "potentially unsafe query detected"

/-- The guard the `getSchema` catch block tests before its
connection-indicative test. -/
def schemaPreGuards (e : ErrorInput) : Bool :=
  strContains (strLower e.message) "invalid database name format"

/-- Disjunction of the guards the `executeStoredProcedure` catch block tests
before its connection-indicative test. -/
def spPreGuards (e : ErrorInput) : Bool :=
  strContains (strLower e.message) "syntax error" ||
  strContains (strLower e.message) "permission" ||
  strContains (strLower e.message) "constraint" ||
  strContains (strLower e.message) "timeout" ||
  strContains (strLower e.message) "invalid database name format" ||
  strContains (strLower e.message) "procedure name cannot be empty" ||
  strContains (strLower e.message) "invalid procedure name format" ||
  strContains (strLower e.message) "each parameter must have a name and type"

/-! ## Concrete fixtures shared by the witness theorems -/

/-- A configuration with the whitelist disabled (the src/config.js defaults:
`maxRetries = 3`, `initialRetryDelay = 1000`, `maxRetryDelay = 10000`,
`schemaCacheTTL = 300000`). -/
def cfgFix : SqlConfig :=
  { user := "sa"
    password := "pw"
    server := "localhost"
    database := "master"
    maxRetries := 3
    initialRetryDelay := 1000
    maxRetryDelay := 10000
    schemaCacheTTL := 300000
    allowedDatabases := [] }

/-- The same configuration with whitelist `["Db1", "Db2"]`. -/
def cfgWl : SqlConfig :=
  { cfgFix with allowedDatabases := ["Db1", "Db2"] }

/-- Trivial driver outcome for a stored procedure producing no recordset. -/
def spEnvFix : SpEnv :=
  { recordset := none, output := [], returnValue := 0, rowsAffected := [] }

/-- Query environment whose parse is a single `select` statement and whose
driver produces no recordset object. -/
def qenvFix : QueryEnv :=
  { parse := .success [{ type := "select" }], recordset := none }

/-- A one-table schema used by cache witnesses. -/
def tblFix : TableSchema :=
  { schema := "dbo", name := "T", fullName := "dbo.T", columns := [] }

/-- A cache holding a `master` entry captured at time 0. -/
def cacheFix : SchemaCache := [("master", { timestamp := 0, data := [tblFix] })]

/-- A connection-indicative raw driver failure. -/
def eFix : ErrorInput := { message := "Failed to connect to SQL Server", code := none }

/-- A failure of the rebuild attempt. -/
def reFix : MssqlMcpError :=
  { message := "still unreachable", errorType := .CONNECTION_ERROR, details := [] }

/-- The fixture configuration with `initialRetryDelay = 100` (below the
1000 ms jitter amplitude). -/
def cfgC3 : SqlConfig := { cfgFix with initialRetryDelay := 100 }

/-- A jitter sequence drawn from `[0, 1000)`: 950 on the first backoff,
0 afterwards. -/
def jitC3 : Nat → ℚ := fun n => if n = 0 then 950 else 0

/-- The observable shape of a whitelist rejection: a thrown
`PermissionError` whose details name the rejected database and the allowed
list. -/
def isWhitelistRejection {α : Type} (res : Except MssqlMcpError α)
    (d : String) (w : List String) : Prop :=
  ∃ e, res = .error e ∧ e.errorType = .PERMISSION_ERROR ∧
    ("database", DetailValue.str d) ∈ e.details ∧
    ("allowed", DetailValue.strList w) ∈ e.details

/-! ## Helper lemmas -/

theorem isPrefixOf_append (m b : List Char) : m.isPrefixOf (m ++ b) = true := by
  induction m with
  | nil => simp [List.isPrefixOf]
  | cons c cs ih => simp [List.isPrefixOf, ih]

theorem isInfixB_append (a m b : List Char) :
    isInfixB m (a ++ (m ++ b)) = true := by
  induction a with
  | nil =>
    cases h : m ++ b with
    | nil =>
      have hm : m = [] := by
        cases m with
        | nil => rfl
        | cons c cs => simp at h
      simp [hm, isInfixB, List.isEmpty]
    | cons c cs =>
      simp only [List.nil_append, h, isInfixB]
      rw [← h, isPrefixOf_append]
      simp
  | cons c cs ih =>
    simp only [List.cons_append, isInfixB, List.append_eq]
    rw [ih]
    simp

/-- `strContains` certifies any string built around the pattern. -/
theorem strContains_of_append (a m b : String) :
    strContains (a ++ (m ++ b)) m = true := by
  simp only [strContains, String.data_append]
  exact isInfixB_append a.data m.data b.data

theorem isInfixB_complete (pat l : List Char) (h : pat <:+: l) :
    isInfixB pat l = true := by
  obtain ⟨a, b, rfl⟩ := h
  rw [List.append_assoc]
  exact isInfixB_append a pat b

theorem strContains_complete (s m : String) (h : m.data <:+: s.data) :
    strContains s m = true :=
  isInfixB_complete m.data s.data h

/-! ## Stable sort by a boolean comparator (JavaScript `Array.prototype.sort`
with comparator `(a, b) => a.index - b.index`; V8 sort is stable). -/

theorem insertLe_perm (le : α → α → Bool) (a : α) (l : List α) :
    List.Perm (insertLe le a l) (a :: l) := by
  induction l with
  | nil => exact List.Perm.refl _
  | cons b bs ih =>
    by_cases h : le a b = true
    · simp [insertLe, h]
    · simp only [insertLe, h, if_false]
      exact List.Perm.trans (ih.cons b) (List.Perm.swap a b bs)

theorem sortLe_perm (le : α → α → Bool) (l : List α) :
    List.Perm (sortLe le l) l := by
  induction l with
  | nil => exact List.Perm.refl _
  | cons a as ih =>
    exact List.Perm.trans (insertLe_perm le a (sortLe le as)) (ih.cons a)

theorem insertLe_pairwise (le : α → α → Bool)
    (htot : ∀ x y, le x y = true ∨ le y x = true)
    (htrans : ∀ x y z, le x y = true → le y z = true → le x z = true)
    (a : α) (l : List α) (hl : l.Pairwise (fun x y => le x y = true)) :
    (insertLe le a l).Pairwise (fun x y => le x y = true) := by
  induction l with
  | nil => simp [insertLe]
  | cons b bs ih =>
    rcases List.pairwise_cons.mp hl with ⟨hb, hbs⟩
    by_cases h : le a b = true
    · simp only [insertLe, if_pos h]
      refine List.pairwise_cons.mpr ⟨?_, hl⟩
      intro y hy
      rcases List.mem_cons.mp hy with hy | hy
      · subst hy
        exact h
      · exact htrans a b y h (hb y hy)
    · simp only [insertLe, if_neg h]
      refine List.pairwise_cons.mpr ⟨?_, ih hbs⟩
      intro y hy
      have hperm := insertLe_perm le a bs
      have hmem : y ∈ a :: bs := hperm.mem_iff.mp hy
      rcases List.mem_cons.mp hmem with hy' | hy'
      · rw [hy']
        rcases htot a b with hab | hba
        · exact absurd hab h
        · exact hba
      · exact hb y hy'

theorem sortLe_pairwise (le : α → α → Bool)
    (htot : ∀ x y, le x y = true ∨ le y x = true)
    (htrans : ∀ x y z, le x y = true → le y z = true → le x z = true)
    (l : List α) :
    (sortLe le l).Pairwise (fun x y => le x y = true) := by
  induction l with
  | nil => simp [sortLe]
  | cons a as ih => exact insertLe_pairwise le htot htrans a (sortLe le as) ih

/-! ## Error taxonomy (src/errors.ts) -/

theorem lookup_eq_none_of_not_mem_keys {β : Type} (l : List (String × β)) (k : String)
    (h : k ∉ l.map Prod.fst) : l.lookup k = none := by
  induction l with
  | nil => rfl
  | cons p ps ih =>
    simp only [List.map_cons, List.mem_cons] at h
    push_neg at h
    have hk : (k == p.1) = false := by
      simp [h.1]
    simp only [List.lookup, hk]
    exact ih h.2

/-! ## Connection-pool retry loop (DatabaseService.getPool,
src/server.ts lines 1481-1576), specialised to a connection that fails on
every attempt.

`initPool` performs one underlying connect attempt per call; under the
always-failing hypothesis every call throws, so `getPool` recurses: at
0-indexed `currentAttempt`, if `currentAttempt < maxRetries - 1` it sleeps
`min(initialRetryDelay * 2 ^ currentAttempt + jitter, maxRetryDelay)` (the
jitter is `Math.random() * 1000`, a real in `[0, 1000)`, passed here as an
explicit sequence) and retries with `currentAttempt + 1`; otherwise it throws
a `ConnectionError` wrapping the last failure with `details.attempts =
maxRetries`. -/

/-! ## Claim theorems -/

theorem whitelistViolation_iff (cfg : SqlConfig) (d : String) :
    whitelistViolation cfg d = true ↔
      cfg.allowedDatabases ≠ [] ∧ d ∉ cfg.allowedDatabases := by
  simp [whitelistViolation, List.isEmpty_iff]

theorem executeQuery_no_perm (cfg : SqlConfig) (env : QueryEnv) (query : String)
    (raw : Option String)
    (hv : whitelistViolation cfg (resolveTargetDb cfg raw) = false)
    (e : MssqlMcpError) (h : executeQuery cfg env query raw = .error e) :
    e.errorType ≠ .PERMISSION_ERROR := by
  simp only [executeQuery] at h
  rw [hv] at h
  simp only [Bool.false_eq_true, if_false] at h
  repeat (any_goals (split at h))
  all_goals first
    | exact Except.noConfusion h
    | (injection h with h2; rw [← h2]; exact fun hc => ErrorType.noConfusion hc)

theorem executeQuery_whitelist_reject (cfg : SqlConfig) (env : QueryEnv)
    (query : String) (raw : Option String)
    (hv : whitelistViolation cfg (resolveTargetDb cfg raw) = true) :
    isWhitelistRejection (executeQuery cfg env query raw)
      (resolveTargetDb cfg raw) cfg.allowedDatabases := by
  refine ⟨queryWhitelistError cfg (resolveTargetDb cfg raw), ?_, rfl,
    by simp [queryWhitelistError], by simp [queryWhitelistError]⟩
  simp only [executeQuery]
  rw [hv]
  rfl

theorem executeStoredProcedure_no_perm (cfg : SqlConfig) (env : SpEnv)
    (procedure : String) (parameters : List ProcParam) (raw : Option String)
    (hv : whitelistViolation cfg (resolveTargetDb cfg raw) = false)
    (e : MssqlMcpError)
    (h : executeStoredProcedure cfg env procedure parameters raw = .error e) :
    e.errorType ≠ .PERMISSION_ERROR := by
  simp only [executeStoredProcedure] at h
  rw [hv] at h
  simp only [Bool.false_eq_true, if_false] at h
  repeat (any_goals (split at h))
  all_goals first
    | exact Except.noConfusion h
    | (injection h with h2; rw [← h2]; exact fun hc => ErrorType.noConfusion hc)

theorem executeStoredProcedure_whitelist_reject (cfg : SqlConfig) (env : SpEnv)
    (procedure : String) (parameters : List ProcParam) (raw : Option String)
    (hv : whitelistViolation cfg (resolveTargetDb cfg raw) = true) :
    isWhitelistRejection (executeStoredProcedure cfg env procedure parameters raw)
      (resolveTargetDb cfg raw) cfg.allowedDatabases := by
  refine ⟨spWhitelistError cfg (resolveTargetDb cfg raw) procedure, ?_, rfl,
    by simp [spWhitelistError], by simp [spWhitelistError]⟩
  simp only [executeStoredProcedure]
  rw [hv]
  rfl

theorem getSchema_no_perm (cfg : SqlConfig) (cache : SchemaCache)
    (tCheck tStore : Int) (fetched : List TableSchema) (dbIdentifier : String)
    (hv : whitelistViolation cfg dbIdentifier = false)
    (e : MssqlMcpError)
    (h : (getSchema cfg cache tCheck tStore fetched dbIdentifier).result = .error e) :
    e.errorType ≠ .PERMISSION_ERROR := by
  simp only [getSchema, getSchemaFetch] at h
  rw [hv] at h
  simp only [Bool.false_eq_true, if_false] at h
  repeat (any_goals (split at h))
  all_goals try dsimp only at h
  all_goals first
    | exact Except.noConfusion h
    | (injection h with h2; rw [← h2]; exact fun hc => ErrorType.noConfusion hc)

theorem getSchema_whitelist_reject (cfg : SqlConfig) (cache : SchemaCache)
    (tCheck tStore : Int) (fetched : List TableSchema) (dbIdentifier : String)
    (hv : whitelistViolation cfg dbIdentifier = true) :
    isWhitelistRejection (getSchema cfg cache tCheck tStore fetched dbIdentifier).result
      dbIdentifier cfg.allowedDatabases := by
  refine ⟨schemaWhitelistError cfg dbIdentifier, ?_, rfl,
    by simp [schemaWhitelistError], by simp [schemaWhitelistError]⟩
  simp only [getSchema]
  rw [hv]
  rfl

/-- C2: each of `executeQuery`, `executeStoredProcedure` and `getSchema`
throws a `PermissionError` carrying the rejected database and the allowed
list if and only if the whitelist is non-empty and the target database (the
caller-supplied name if given, else the configured default) is not a member;
an empty whitelist never rejects. -/
theorem whitelist_rejection_iff (cfg : SqlConfig) (qenv : QueryEnv) (query : String)
    (spenv : SpEnv) (procedure : String) (parameters : List ProcParam)
    (cache : SchemaCache) (tCheck tStore : Int) (fetched : List TableSchema)
    (rawQ rawP rawS : Option String) :
    (isWhitelistRejection (executeQuery cfg qenv query rawQ)
        (resolveTargetDb cfg rawQ) cfg.allowedDatabases ↔
      cfg.allowedDatabases ≠ [] ∧ resolveTargetDb cfg rawQ ∉ cfg.allowedDatabases)
  ∧ (isWhitelistRejection (executeStoredProcedure cfg spenv procedure parameters rawP)
        (resolveTargetDb cfg rawP) cfg.allowedDatabases ↔
      cfg.allowedDatabases ≠ [] ∧ resolveTargetDb cfg rawP ∉ cfg.allowedDatabases)
  ∧ (isWhitelistRejection (getSchema cfg cache tCheck tStore fetched
          (resolveTargetDb cfg rawS)).result
        (resolveTargetDb cfg rawS) cfg.allowedDatabases ↔
      cfg.allowedDatabases ≠ [] ∧ resolveTargetDb cfg rawS ∉ cfg.allowedDatabases) := by
  refine ⟨⟨?_, ?_⟩, ⟨?_, ?_⟩, ⟨?_, ?_⟩⟩
  · rintro ⟨e, he, het, -, -⟩
    by_cases hv : whitelistViolation cfg (resolveTargetDb cfg rawQ) = true
    · exact (whitelistViolation_iff cfg _).mp hv
    · have hv' : whitelistViolation cfg (resolveTargetDb cfg rawQ) = false :=
        Bool.not_eq_true _ ▸ eq_false_of_ne_true hv
      exact absurd het (executeQuery_no_perm cfg qenv query rawQ hv' e he)
  · intro hcond
    exact executeQuery_whitelist_reject cfg qenv query rawQ
      ((whitelistViolation_iff cfg _).mpr hcond)
  · rintro ⟨e, he, het, -, -⟩
    by_cases hv : whitelistViolation cfg (resolveTargetDb cfg rawP) = true
    · exact (whitelistViolation_iff cfg _).mp hv
    · have hv' : whitelistViolation cfg (resolveTargetDb cfg rawP) = false :=
        eq_false_of_ne_true hv
      exact absurd het
        (executeStoredProcedure_no_perm cfg spenv procedure parameters rawP hv' e he)
  · intro hcond
    exact executeStoredProcedure_whitelist_reject cfg spenv procedure parameters rawP
      ((whitelistViolation_iff cfg _).mpr hcond)
  · rintro ⟨e, he, het, -, -⟩
    by_cases hv : whitelistViolation cfg (resolveTargetDb cfg rawS) = true
    · exact (whitelistViolation_iff cfg _).mp hv
    · have hv' : whitelistViolation cfg (resolveTargetDb cfg rawS) = false :=
        eq_false_of_ne_true hv
      exact absurd het
        (getSchema_no_perm cfg cache tCheck tStore fetched _ hv' e he)
  · intro hcond
    exact getSchema_whitelist_reject cfg cache tCheck tStore fetched _
      ((whitelistViolation_iff cfg _).mpr hcond)

theorem whitelist_rejection_iff_witness :
    isWhitelistRejection (executeQuery cfgWl qenvFix "SELECT 1" (some "Db3"))
      (resolveTargetDb cfgWl (some "Db3")) cfgWl.allowedDatabases
  ∧ ¬ isWhitelistRejection (executeQuery cfgFix qenvFix "SELECT 1" (some "AnyDb"))
      (resolveTargetDb cfgFix (some "AnyDb")) cfgFix.allowedDatabases := by
  constructor
  · exact (whitelist_rejection_iff cfgWl qenvFix "SELECT 1" spEnvFix "p" [] [] 0 0 []
      (some "Db3") none none).1.mpr ⟨by decide, by decide⟩
  · intro hr
    have hc := (whitelist_rejection_iff cfgFix qenvFix "SELECT 1" spEnvFix "p" [] [] 0 0 []
      (some "AnyDb") none none).1.mp hr
    exact hc.1 (by decide)

theorem lookup_map_replace (c : SchemaCache) (k : String) (v : CacheEntry)
    (h : c.any (fun p => p.1 = k) = true) :
    (c.map (fun p => if p.1 = k then (k, v) else p)).lookup k = some v := by
  induction c with
  | nil => simp at h
  | cons p ps ih =>
    obtain ⟨p1, p2⟩ := p
    simp only [List.any_cons, Bool.or_eq_true, decide_eq_true_eq] at h
    by_cases hp : p1 = k
    · subst hp
      simp only [List.map_cons]
      simp [List.lookup]
    · have h' : ps.any (fun p => p.1 = k) = true := by
        rcases h with h | h
        · exact absurd h hp
        · exact h
      simp only [List.map_cons]
      rw [if_neg hp]
      simp only [List.lookup]
      rw [show (k == p1) = false from beq_eq_false_iff_ne.mpr (Ne.symm hp)]
      exact ih h'

theorem lookup_append_absent (c : SchemaCache) (k : String) (v : CacheEntry)
    (h : c.any (fun p => p.1 = k) = false) :
    (c ++ [(k, v)]).lookup k = some v := by
  induction c with
  | nil => simp [List.lookup]
  | cons p ps ih =>
    obtain ⟨p1, p2⟩ := p
    simp only [List.any_cons, Bool.or_eq_false_iff, decide_eq_false_iff_not] at h
    simp only [List.cons_append, List.lookup]
    rw [show (k == p1) = false from beq_eq_false_iff_ne.mpr (Ne.symm h.1)]
    exact ih h.2

/-- A `Map.set` wholly replaces the entry for the key. -/
theorem cacheGet_cacheSet (c : SchemaCache) (k : String) (v : CacheEntry) :
    cacheGet (cacheSet c k v) k = some v := by
  unfold cacheGet cacheSet
  by_cases h : c.any (fun p => p.1 = k) = true
  · rw [if_pos h]
    exact lookup_map_replace c k v h
  · rw [if_neg h]
    exact lookup_append_absent c k v ((Bool.not_eq_true _) ▸ h)

/-- C5: with the whitelist passing, a `getSchema` call at `tCheck` with a
cache entry younger than the TTL returns the cached table list unchanged
with no new metadata fetch and the cache untouched; with no entry or a
stale one (and a target database that passes the context-switch guard) it
performs exactly one fetch whose result wholly replaces the entry for that
key with the fresh timestamp `tStore`. -/
theorem schemaCache_ttl (cfg : SqlConfig) (cache : SchemaCache)
    (tCheck tStore : Int) (fetched : List TableSchema) (dbId : String)
    (hwl : whitelistViolation cfg dbId = false) :
    (∀ entry, cacheGet cache dbId = some entry →
        tCheck - entry.timestamp < cfg.schemaCacheTTL →
        getSchema cfg cache tCheck tStore fetched dbId =
          { result := .ok entry.data, cache := cache, fetches := 0 })
  ∧ ((cacheGet cache dbId = none ∨
        ∃ entry, cacheGet cache dbId = some entry ∧
          ¬ tCheck - entry.timestamp < cfg.schemaCacheTTL) →
      (dbId = cfg.database ∨ validDbNameFormat dbId = true) →
      getSchema cfg cache tCheck tStore fetched dbId =
        { result := .ok fetched
          cache := cacheSet cache dbId { timestamp := tStore, data := fetched }
          fetches := 1 }
      ∧ cacheGet (cacheSet cache dbId { timestamp := tStore, data := fetched }) dbId =
          some { timestamp := tStore, data := fetched }) := by
  constructor
  · intro entry hget hfresh
    simp only [getSchema]
    rw [hwl]
    simp only [Bool.false_eq_true, if_false, hget]
    rw [if_pos hfresh]
  · intro hmiss hfmt
    have hfe : ¬(dbId ≠ cfg.database ∧ validDbNameFormat dbId = false) := by
      rcases hfmt with h | h
      · intro hc
        exact hc.1 h
      · intro hc
        rw [h] at hc
        exact Bool.true_eq_false.mp hc.2
    refine ⟨?_, cacheGet_cacheSet cache dbId _⟩
    simp only [getSchema]
    rw [hwl]
    simp only [Bool.false_eq_true, if_false]
    rcases hmiss with h | ⟨entry, hget, hstale⟩
    · simp only [h]
      simp only [getSchemaFetch]
      rw [if_neg hfe]
    · simp only [hget]
      rw [if_neg hstale]
      simp only [getSchemaFetch]
      rw [if_neg hfe]

theorem schemaCache_ttl_witness :
    getSchema cfgFix cacheFix 100 100 [] "master" =
      { result := .ok [tblFix], cache := cacheFix, fetches := 0 }
  ∧ getSchema cfgFix cacheFix 400000 400000 [tblFix] "master" =
      { result := .ok [tblFix]
        cache := cacheSet cacheFix "master" { timestamp := 400000, data := [tblFix] }
        fetches := 1 } := by
  have h1 := schemaCache_ttl cfgFix cacheFix 100 100 [] "master" (by decide)
  have h2 := schemaCache_ttl cfgFix cacheFix 400000 400000 [tblFix] "master" (by decide)
  exact ⟨h1.1 { timestamp := 0, data := [tblFix] } (by decide) (by decide),
    (h2.2 (Or.inr ⟨{ timestamp := 0, data := [tblFix] }, by decide, by decide⟩)
      (Or.inl (by decide))).1⟩

/-- C8: the whitelist produced from `SQL_ALLOWED_DATABASES` is claimed to
contain only trimmed, non-empty entries and to be empty exactly when the
variable is unset or empty.  Evaluating src/config.js line 29 at the input
`SQL_ALLOWED_DATABASES = " Db1,Db2"` produces the entry `" Db1"` with leading
whitespace (the repository docs describe a `.map(db => db.trim())` step that
the shipped code does not perform), and at `","` it produces the empty
whitelist although the variable is non-empty. -/
theorem allowedDatabases_untrimmed_eval :
    allowedDatabasesOf (some " Db1,Db2") = [" Db1", "Db2"]
  ∧ (∃ entry ∈ allowedDatabasesOf (some " Db1,Db2"), strTrim entry ≠ entry)
  ∧ allowedDatabasesOf (some ",") = []
  ∧ "," ≠ "" := by
  refine ⟨by decide, ⟨" Db1", by decide, by decide⟩, by decide, by decide⟩

/-- C9: an unrecognized parameter type name (after lowercasing and trimming
it is not a key of `sqlDataTypeMap`) maps to `NVarChar` without raising any
error, and the convenience aliases map case-insensitively: `string` to
`NVarChar`, `number` to `Int`, `boolean` to `Bit`. -/
theorem mapStringToSqlType_defaulting (typeName : String) :
    (strTrim (strLower typeName) ∉ sqlDataTypeMap.map Prod.fst →
        mapStringToSqlType typeName = .NVarChar)
  ∧ (strTrim (strLower typeName) = "string" → mapStringToSqlType typeName = .NVarChar)
  ∧ (strTrim (strLower typeName) = "number" → mapStringToSqlType typeName = .Int)
  ∧ (strTrim (strLower typeName) = "boolean" → mapStringToSqlType typeName = .Bit) := by
  refine ⟨?_, ?_, ?_, ?_⟩
  · intro h
    simp only [mapStringToSqlType]
    rw [lookup_eq_none_of_not_mem_keys _ _ h]
  · intro h
    simp only [mapStringToSqlType]
    rw [h]
    rfl
  · intro h
    simp only [mapStringToSqlType]
    rw [h]
    rfl
  · intro h
    simp only [mapStringToSqlType]
    rw [h]
    rfl

theorem mapStringToSqlType_defaulting_witness :
    mapStringToSqlType "NVARCHAR2" = .NVarChar
  ∧ mapStringToSqlType "STRING" = .NVarChar
  ∧ mapStringToSqlType " Number " = .Int
  ∧ mapStringToSqlType "BooLean" = .Bit :=
  ⟨(mapStringToSqlType_defaulting "NVARCHAR2").1 (by decide),
   (mapStringToSqlType_defaulting "STRING").2.1 (by decide),
   (mapStringToSqlType_defaulting " Number ").2.2.1 (by decide),
   (mapStringToSqlType_defaulting "BooLean").2.2.2 (by decide)⟩

/-- C10: `executeStoredProcedure` applies no blocked-keyword filter to the
procedure name: every name matching the identifier pattern (including names
such as `sp_who`) passes name validation and reaches execution, while the
`exec`/`sp_`/`xp_` substring block lives only in `executeQuery`
(any query text whose lowercase form contains `sp_` trips
`hasBlockedKeyword`). -/
theorem storedProcedure_name_unfiltered
    (cfg : SqlConfig) (env : SpEnv) (procedure : String)
    (parameters : List ProcParam) (raw : Option String)
    (hwl : whitelistViolation cfg (resolveTargetDb cfg raw) = false)
    (hdb : resolveTargetDb cfg raw = cfg.database ∨
        validDbNameFormat (resolveTargetDb cfg raw) = true)
    (hne : strTrim procedure ≠ "")
    (hfmt : validProcedureNameFormat procedure = true)
    (hparams : ∀ p ∈ parameters, p.name ≠ "" ∧ p.type ≠ "") :
    (∃ r, executeStoredProcedure cfg env procedure parameters raw = .ok r)
  ∧ (∀ q : String, strContains (strLower q) "sp_" = true → hasBlockedKeyword q = true) := by
  constructor
  · have h2 : ¬(resolveTargetDb cfg raw ≠ cfg.database ∧
        validDbNameFormat (resolveTargetDb cfg raw) = false) := by
      rcases hdb with h | h
      · intro hc
        exact hc.1 h
      · intro hc
        rw [h] at hc
        exact Bool.true_eq_false.mp hc.2
    have hfind : parameters.find? (fun p => p.name = "" ∨ p.type = "") = none := by
      rw [List.find?_eq_none]
      intro p hp
      have := hparams p hp
      simp only [decide_eq_true_eq]
      push_neg
      exact this
    simp only [executeStoredProcedure]
    rw [hwl, hfmt, hfind]
    simp only [if_neg h2, if_neg hne]
    simp only [Bool.false_eq_true, Bool.true_eq_false, if_false]
    cases henv : env.recordset with
    | none => exact ⟨_, rfl⟩
    | some rs =>
      obtain ⟨rows, cols⟩ := rs
      cases rows with
      | nil => exact ⟨_, rfl⟩
      | cons r0 rest => exact ⟨_, rfl⟩
  · intro q h
    refine List.any_eq_true.mpr ⟨"sp_", by decide, h⟩

theorem storedProcedure_name_unfiltered_witness :
    (∃ r, executeStoredProcedure cfgFix spEnvFix "sp_who" [] none = .ok r)
  ∧ hasBlockedKeyword "SELECT * FROM sp_who" = true := by
  have h := storedProcedure_name_unfiltered cfgFix spEnvFix "sp_who" [] none
    (by decide) (Or.inl (by decide)) (by decide) (by decide) (by intro p hp; cases hp)
  exact ⟨h.1, h.2 "SELECT * FROM sp_who" (by decide)⟩

theorem executeQuery_valid (cfg : SqlConfig) (env : QueryEnv) (query : String)
    (raw : Option String) (stmts : List SqlStatement)
    (hwl : whitelistViolation cfg (resolveTargetDb cfg raw) = false)
    (hdb : resolveTargetDb cfg raw = cfg.database ∨
        validDbNameFormat (resolveTargetDb cfg raw) = true)
    (hq : strTrim query ≠ "")
    (hparse : env.parse = .success stmts)
    (hsel : ∀ q ∈ stmts, q.type = "select")
    (hkw : hasBlockedKeyword query = false) :
    executeQuery cfg env query raw = .ok (shapeQueryResult env.recordset) := by
  have h2 : ¬(resolveTargetDb cfg raw ≠ cfg.database ∧
      validDbNameFormat (resolveTargetDb cfg raw) = false) := by
    rcases hdb with h | h
    · intro hc
      exact hc.1 h
    · intro hc
      rw [h] at hc
      exact Bool.true_eq_false.mp hc.2
  have hfind : stmts.find? (fun q => q.type ≠ "select") = none := by
    rw [List.find?_eq_none]
    intro q hqmem
    simp [hsel q hqmem]
  simp only [executeQuery]
  rw [hwl]
  simp only [Bool.false_eq_true, if_false]
  rw [if_neg h2, if_neg hq]
  simp only [hparse, hfind]
  rw [hkw]
  simp

/-- C6: once validation passes, a query whose primary recordset is empty but
carries column metadata yields the success record with the column names
ordered by column index, empty rows and zero count; a query producing no
recordset object at all yields the empty success record — neither is an
error. -/
theorem empty_recordset_shaping (cfg : SqlConfig) (env : QueryEnv) (query : String)
    (raw : Option String) (stmts : List SqlStatement) (cols : List ColumnMeta)
    (hwl : whitelistViolation cfg (resolveTargetDb cfg raw) = false)
    (hdb : resolveTargetDb cfg raw = cfg.database ∨
        validDbNameFormat (resolveTargetDb cfg raw) = true)
    (hq : strTrim query ≠ "")
    (hparse : env.parse = .success stmts)
    (hsel : ∀ q ∈ stmts, q.type = "select")
    (hkw : hasBlockedKeyword query = false) :
    (env.recordset = some { rows := [], columns := some cols } →
        executeQuery cfg env query raw =
          .ok { columns := (sortColumnsByIndex cols).map ColumnMeta.name
                rows := []
                recordCount := 0 }
      ∧ ((sortColumnsByIndex cols).map ColumnMeta.index).Pairwise (· ≤ ·)
      ∧ List.Perm ((sortColumnsByIndex cols).map ColumnMeta.name)
          (cols.map ColumnMeta.name))
  ∧ (env.recordset = none →
      executeQuery cfg env query raw =
        .ok { columns := [], rows := [], recordCount := 0 }) := by
  have hrun := executeQuery_valid cfg env query raw stmts hwl hdb hq hparse hsel hkw
  constructor
  · intro hrs
    refine ⟨?_, ?_, ?_⟩
    · rw [hrun, hrs]
      rfl
    · rw [List.pairwise_map]
      have hp := sortLe_pairwise (fun a b : ColumnMeta => a.index ≤ b.index)
        (fun x y => by
          rcases Nat.le_total x.index y.index with h | h
          · exact Or.inl (decide_eq_true h)
          · exact Or.inr (decide_eq_true h))
        (fun x y z hxy hyz =>
          decide_eq_true (Nat.le_trans (of_decide_eq_true hxy) (of_decide_eq_true hyz)))
        cols
      exact hp.imp (fun hab => of_decide_eq_true hab)
    · exact (sortLe_perm _ cols).map ColumnMeta.name
  · intro hrs
    rw [hrun, hrs]
    rfl

theorem empty_recordset_shaping_witness :
    executeQuery cfgFix
        { parse := .success [{ type := "select" }]
          recordset := some { rows := []
                              columns := some [{ index := 1, name := "b" },
                                               { index := 0, name := "a" }] } }
        "SELECT 1" none =
      .ok { columns := ["a", "b"], rows := [], recordCount := 0 }
  ∧ executeQuery cfgFix qenvFix "SELECT 1" none =
      .ok { columns := [], rows := [], recordCount := 0 } := by
  have h := empty_recordset_shaping cfgFix
    { parse := .success [{ type := "select" }]
      recordset := some { rows := []
                          columns := some [{ index := 1, name := "b" },
                                           { index := 0, name := "a" }] } }
    "SELECT 1" none [{ type := "select" }]
    [{ index := 1, name := "b" }, { index := 0, name := "a" }]
    (by decide) (Or.inl rfl) (by decide) rfl (by decide) (by decide)
  have h2 := empty_recordset_shaping cfgFix qenvFix "SELECT 1" none
    [{ type := "select" }] []
    (by decide) (Or.inl rfl) (by decide) rfl (by decide) (by decide)
  constructor
  · rw [(h.1 rfl).1]
    decide
  · exact h2.2 rfl

/-- C1: `executeQuery` reaches the driver execute step only if every
top-level parsed statement has type `select` and the lowercased text
contains no blocked substring; a parse with a non-select top-level statement
is rejected with a `ValidationError` naming the offending statement kind,
and a text containing a blocked substring is rejected with a
`ValidationError` even when every statement parses as `SELECT`. -/
theorem executeQuery_readonly_enforcement (cfg : SqlConfig) (env : QueryEnv)
    (query : String) (raw : Option String) :
    (∀ r, executeQuery cfg env query raw = .ok r →
        (∃ stmts, env.parse = .success stmts ∧ ∀ q ∈ stmts, q.type = "select")
        ∧ hasBlockedKeyword query = false)
  ∧ (∀ stmts, whitelistViolation cfg (resolveTargetDb cfg raw) = false →
        (resolveTargetDb cfg raw = cfg.database ∨
          validDbNameFormat (resolveTargetDb cfg raw) = true) →
        strTrim query ≠ "" →
        env.parse = .success stmts →
        (∃ q ∈ stmts, q.type ≠ "select") →
        ∃ e q0, executeQuery cfg env query raw = .error e ∧
          e.errorType = .VALIDATION_ERROR ∧ q0 ∈ stmts ∧ q0.type ≠ "select" ∧
          ("queryType", DetailValue.str q0.type) ∈ e.details)
  ∧ (∀ stmts, whitelistViolation cfg (resolveTargetDb cfg raw) = false →
        (resolveTargetDb cfg raw = cfg.database ∨
          validDbNameFormat (resolveTargetDb cfg raw) = true) →
        strTrim query ≠ "" →
        env.parse = .success stmts →
        (∀ q ∈ stmts, q.type = "select") →
        hasBlockedKeyword query = true →
        ∃ e, executeQuery cfg env query raw = .error e ∧
          e.errorType = .VALIDATION_ERROR) := by
  refine ⟨?_, ?_, ?_⟩
  · intro r h
    by_cases hwl : whitelistViolation cfg (resolveTargetDb cfg raw) = true
    · obtain ⟨e, he, -, -, -⟩ := executeQuery_whitelist_reject cfg env query raw hwl
      rw [he] at h
      exact Except.noConfusion h
    · have hwl2 : whitelistViolation cfg (resolveTargetDb cfg raw) = false :=
        (Bool.not_eq_true _) ▸ hwl
      simp only [executeQuery] at h
      rw [hwl2] at h
      simp only [Bool.false_eq_true, if_false] at h
      by_cases hdb : resolveTargetDb cfg raw ≠ cfg.database ∧
          validDbNameFormat (resolveTargetDb cfg raw) = false
      · rw [if_pos hdb] at h
        exact Except.noConfusion h
      · rw [if_neg hdb] at h
        by_cases hq : strTrim query = ""
        · rw [if_pos hq] at h
          exact Except.noConfusion h
        · rw [if_neg hq] at h
          cases hparse : env.parse with
          | failure msg =>
            simp only [hparse] at h
            exact Except.noConfusion h
          | success stmts =>
            simp only [hparse] at h
            cases hfind : stmts.find? (fun q => q.type ≠ "select") with
            | some q =>
              simp only [hfind] at h
              exact Except.noConfusion h
            | none =>
              simp only [hfind] at h
              by_cases hkw : hasBlockedKeyword query = true
              · rw [if_pos hkw] at h
                exact Except.noConfusion h
              · have hkw2 : hasBlockedKeyword query = false :=
                  (Bool.not_eq_true _) ▸ hkw
                refine ⟨⟨stmts, rfl, ?_⟩, hkw2⟩
                intro q hq2
                have := List.find?_eq_none.mp hfind q hq2
                simpa using this
  · rintro stmts hwl hdb hq hparse ⟨q1, hq1mem, hq1ty⟩
    have hsome : (stmts.find? (fun q => q.type ≠ "select")).isSome := by
      rw [List.find?_isSome]
      exact ⟨q1, hq1mem, by simpa using hq1ty⟩
    obtain ⟨q0, hfind⟩ := Option.isSome_iff_exists.mp hsome
    have hq0 : q0.type ≠ "select" := by simpa using List.find?_some hfind
    have hq0mem := List.mem_of_find?_eq_some hfind
    have h2 : ¬(resolveTargetDb cfg raw ≠ cfg.database ∧
        validDbNameFormat (resolveTargetDb cfg raw) = false) := by
      rcases hdb with h | h
      · intro hc
        exact hc.1 h
      · intro hc
        rw [h] at hc
        exact Bool.true_eq_false.mp hc.2
    have heq : executeQuery cfg env query raw = .error (selectOnlyError query q0.type) := by
      simp only [executeQuery]
      rw [hwl]
      simp only [Bool.false_eq_true, if_false]
      rw [if_neg h2, if_neg hq]
      simp only [hparse, hfind]
    exact ⟨_, q0, heq, rfl, hq0mem, hq0, by simp [selectOnlyError]⟩
  · intro stmts hwl hdb hq hparse hsel hkw
    have h2 : ¬(resolveTargetDb cfg raw ≠ cfg.database ∧
        validDbNameFormat (resolveTargetDb cfg raw) = false) := by
      rcases hdb with h | h
      · intro hc
        exact hc.1 h
      · intro hc
        rw [h] at hc
        exact Bool.true_eq_false.mp hc.2
    have hfind : stmts.find? (fun q => q.type ≠ "select") = none := by
      rw [List.find?_eq_none]
      intro q hqmem
      simp [hsel q hqmem]
    have heq : executeQuery cfg env query raw = .error (blockedKeywordError query) := by
      simp only [executeQuery]
      rw [hwl]
      simp only [Bool.false_eq_true, if_false]
      rw [if_neg h2, if_neg hq]
      simp only [hparse, hfind]
      rw [if_pos hkw]
    exact ⟨_, heq, rfl⟩

theorem executeQuery_readonly_enforcement_witness :
    ((∃ stmts, (qenvFix.parse = ParseOutcome.success stmts) ∧ ∀ q ∈ stmts, q.type = "select")
      ∧ hasBlockedKeyword "SELECT 1" = false)
  ∧ (∃ e q0, executeQuery cfgFix { parse := .success [{ type := "drop" }], recordset := none }
        "DROP TABLE Foo" none = .error e ∧
      e.errorType = .VALIDATION_ERROR ∧ q0 ∈ [({ type := "drop" } : SqlStatement)] ∧
      q0.type ≠ "select" ∧ ("queryType", DetailValue.str q0.type) ∈ e.details)
  ∧ (∃ e, executeQuery cfgFix { parse := .success [{ type := "select" }], recordset := none }
        "SELECT * FROM sp_who" none = .error e ∧ e.errorType = .VALIDATION_ERROR) := by
  refine ⟨?_, ?_, ?_⟩
  · exact (executeQuery_readonly_enforcement cfgFix qenvFix "SELECT 1" none).1
      { columns := [], rows := [], recordCount := 0 } (by decide)
  · exact (executeQuery_readonly_enforcement cfgFix
      { parse := .success [{ type := "drop" }], recordset := none } "DROP TABLE Foo" none).2.1
      [{ type := "drop" }] (by decide) (Or.inl rfl) (by decide) rfl
      ⟨{ type := "drop" }, by decide, by decide⟩
  · exact (executeQuery_readonly_enforcement cfgFix
      { parse := .success [{ type := "select" }], recordset := none } "SELECT * FROM sp_who" none).2.2
      [{ type := "select" }] (by decide) (Or.inl rfl) (by decide) rfl
      (by intro q hq; simp at hq; rw [hq]) (by decide)

theorem strContains_last (a m b re : String) :
    strContains (a ++ (m ++ (b ++ re))) re = true := by
  apply strContains_complete
  simp only [String.data_append]
  refine ⟨a.data ++ (m.data ++ b.data), [], ?_⟩
  simp

/-- C7: in each of the three catch blocks, when the classifier reaches its
connection-indicative branch it closes the pool and attempts exactly one
`getPool` rebuild; when the rebuild succeeds the error surfaced is still
classified from the original failure (kind `ConnectionError`, original
message), and when the rebuild fails a single `ConnectionError` is thrown
whose details carry the original message and a detail string containing
both the original and the rebuild failure messages. -/
theorem connection_failure_selfheal (query database procedure : String)
    (e : ErrorInput) (rebuild : Except MssqlMcpError Unit)
    (hq : queryPreGuards e = false)
    (hs : schemaPreGuards e = false)
    (hp : spPreGuards e = false)
    (hc : connectionIndicative e = true) :
    ((classifyQueryFailure query database e rebuild).poolClosed = true
      ∧ (classifyQueryFailure query database e rebuild).rebuildAttempts = 1
      ∧ (rebuild = .ok () →
          (classifyQueryFailure query database e rebuild).error.errorType = .CONNECTION_ERROR
          ∧ (classifyQueryFailure query database e rebuild).error.message = e.message)
      ∧ (∀ re, rebuild = .error re →
          (classifyQueryFailure query database e rebuild).error.errorType = .CONNECTION_ERROR
          ∧ ("originalErrorMsg", DetailValue.str e.message) ∈
              (classifyQueryFailure query database e rebuild).error.details
          ∧ ∃ s, ("details", DetailValue.str s) ∈
                (classifyQueryFailure query database e rebuild).error.details
              ∧ strContains s e.message = true ∧ strContains s re.message = true))
  ∧ ((classifySchemaFailure database e rebuild).poolClosed = true
      ∧ (classifySchemaFailure database e rebuild).rebuildAttempts = 1
      ∧ (rebuild = .ok () →
          (classifySchemaFailure database e rebuild).error.errorType = .CONNECTION_ERROR
          ∧ (classifySchemaFailure database e rebuild).error.message = e.message)
      ∧ (∀ re, rebuild = .error re →
          (classifySchemaFailure database e rebuild).error.errorType = .CONNECTION_ERROR
          ∧ ("originalErrorMsg", DetailValue.str e.message) ∈
              (classifySchemaFailure database e rebuild).error.details
          ∧ ∃ s, ("details", DetailValue.str s) ∈
                (classifySchemaFailure database e rebuild).error.details
              ∧ strContains s e.message = true ∧ strContains s re.message = true))
  ∧ ((classifySpFailure procedure database e rebuild).poolClosed = true
      ∧ (classifySpFailure procedure database e rebuild).rebuildAttempts = 1
      ∧ (rebuild = .ok () →
          (classifySpFailure procedure database e rebuild).error.errorType = .CONNECTION_ERROR
          ∧ (classifySpFailure procedure database e rebuild).error.message = e.message)
      ∧ (∀ re, rebuild = .error re →
          (classifySpFailure procedure database e rebuild).error.errorType = .CONNECTION_ERROR
          ∧ ("originalErrorMsg", DetailValue.str e.message) ∈
              (classifySpFailure procedure database e rebuild).error.details
          ∧ ∃ s, ("details", DetailValue.str s) ∈
                (classifySpFailure procedure database e rebuild).error.details
              ∧ strContains s e.message = true ∧ strContains s re.message = true)) := by
  simp only [queryPreGuards, Bool.or_eq_false_iff] at hq
  obtain ⟨⟨⟨⟨⟨⟨⟨hq1, hq2⟩, hq3⟩, hq4⟩, hq5⟩, hq6⟩, hq7⟩, hq8⟩ := hq
  simp only [schemaPreGuards] at hs
  simp only [spPreGuards, Bool.or_eq_false_iff] at hp
  obtain ⟨⟨⟨⟨⟨⟨⟨hp1, hp2⟩, hp3⟩, hp4⟩, hp5⟩, hp6⟩, hp7⟩, hp8⟩ := hp
  have hcq : ∀ rb : Except MssqlMcpError Unit,
      classifyQueryFailure query database e rb =
        match rb with
        | .ok _ =>
          ⟨⟨e.message, .CONNECTION_ERROR, [("query", .str (truncateQuery query))]⟩, true, 1⟩
        | .error reconnectError =>
          ⟨⟨"Operation executeQuery for database " ++ database ++
                " failed due to an initial connection error, and the subsequent attempt to re-establish the connection also failed."
            , .CONNECTION_ERROR
            , [("database", .str database),
               ("operation", .str "executeQuery"),
               ("query", .str (truncateQuery query)),
               ("originalErrorMsg", .str e.message),
               ("details", .str ("Reconnect attempt failed after initial failure of executeQuery. Original error: " ++
                  (e.message ++ (". Reconnect error: " ++ reconnectError.message))))]⟩
            , true, 1⟩ := by
    intro rb
    simp only [classifyQueryFailure]
    rw [hq1, hq2, hq3, hq4, hq5, hq6, hq7, hq8, hc]
    simp
  have hcs : ∀ rb : Except MssqlMcpError Unit,
      classifySchemaFailure database e rb =
        match rb with
        | .ok _ =>
          ⟨⟨e.message, .CONNECTION_ERROR, [("database", .str database)]⟩, true, 1⟩
        | .error reconnectError =>
          ⟨⟨"Operation getSchema for database " ++ database ++
                " failed due to an initial connection error, and the subsequent attempt to re-establish the connection also failed."
            , .CONNECTION_ERROR
            , [("database", .str database),
               ("operation", .str "getSchema"),
               ("originalErrorMsg", .str e.message),
               ("details", .str ("Reconnect attempt failed after initial failure of getSchema. Original error: " ++
                  (e.message ++ (". Reconnect error: " ++ reconnectError.message))))]⟩
            , true, 1⟩ := by
    intro rb
    simp only [classifySchemaFailure]
    rw [hs, hc]
    simp
  have hcp : ∀ rb : Except MssqlMcpError Unit,
      classifySpFailure procedure database e rb =
        match rb with
        | .ok _ =>
          ⟨⟨e.message, .CONNECTION_ERROR, [("procedure", .str procedure)]⟩, true, 1⟩
        | .error reconnectError =>
          ⟨⟨"Operation executeStoredProcedure for database " ++ database ++
                " (procedure: " ++ procedure ++
                ") failed due to an initial connection error, and the subsequent attempt to re-establish the connection also failed."
            , .CONNECTION_ERROR
            , [("database", .str database),
               ("operation", .str "executeStoredProcedure"),
               ("procedure", .str procedure),
               ("originalErrorMsg", .str e.message),
               ("details", .str ("Reconnect attempt failed after initial failure of executeStoredProcedure. Original error: " ++
                  (e.message ++ (". Reconnect error: " ++ reconnectError.message))))]⟩
            , true, 1⟩ := by
    intro rb
    simp only [classifySpFailure]
    rw [hp1, hp2, hp3, hp4, hp5, hp6, hp7, hp8, hc]
    simp
  refine ⟨⟨?_, ?_, ?_, ?_⟩, ⟨?_, ?_, ?_, ?_⟩, ⟨?_, ?_, ?_, ?_⟩⟩
  · rw [hcq]
    cases rebuild <;> rfl
  · rw [hcq]
    cases rebuild <;> rfl
  · intro hrb
    subst hrb
    rw [hcq]
    exact ⟨rfl, rfl⟩
  · intro re hrb
    subst hrb
    rw [hcq]
    refine ⟨rfl, by simp, ?_⟩
    refine ⟨"Reconnect attempt failed after initial failure of executeQuery. Original error: " ++
        (e.message ++ (". Reconnect error: " ++ re.message)),
      by simp, strContains_of_append _ _ _, strContains_last _ _ _ _⟩
  · rw [hcs]
    cases rebuild <;> rfl
  · rw [hcs]
    cases rebuild <;> rfl
  · intro hrb
    subst hrb
    rw [hcs]
    exact ⟨rfl, rfl⟩
  · intro re hrb
    subst hrb
    rw [hcs]
    refine ⟨rfl, by simp, ?_⟩
    refine ⟨"Reconnect attempt failed after initial failure of getSchema. Original error: " ++
        (e.message ++ (". Reconnect error: " ++ re.message)),
      by simp, strContains_of_append _ _ _, strContains_last _ _ _ _⟩
  · rw [hcp]
    cases rebuild <;> rfl
  · rw [hcp]
    cases rebuild <;> rfl
  · intro hrb
    subst hrb
    rw [hcp]
    exact ⟨rfl, rfl⟩
  · intro re hrb
    subst hrb
    rw [hcp]
    refine ⟨rfl, by simp, ?_⟩
    refine ⟨"Reconnect attempt failed after initial failure of executeStoredProcedure. Original error: " ++
        (e.message ++ (". Reconnect error: " ++ re.message)),
      by simp, strContains_of_append _ _ _, strContains_last _ _ _ _⟩

theorem connection_failure_selfheal_witness :
    (classifyQueryFailure "SELECT 1" "master" eFix (.ok ())).poolClosed = true
  ∧ (classifyQueryFailure "SELECT 1" "master" eFix (.ok ())).error.message = eFix.message
  ∧ (classifySchemaFailure "master" eFix (.error reFix)).error.errorType = .CONNECTION_ERROR
  ∧ (∃ s, ("details", DetailValue.str s) ∈
        (classifySpFailure "dbo.P" "master" eFix (.error reFix)).error.details
      ∧ strContains s eFix.message = true ∧ strContains s reFix.message = true) := by
  have h1 := connection_failure_selfheal "SELECT 1" "master" "dbo.P" eFix (.ok ())
    (by decide) (by decide) (by decide) (by decide)
  have h2 := connection_failure_selfheal "SELECT 1" "master" "dbo.P" eFix (.error reFix)
    (by decide) (by decide) (by decide) (by decide)
  exact ⟨h1.1.1, (h1.1.2.2.1 rfl).2, (h2.2.1.2.2.2 reFix rfl).1, (h2.2.2.2.2.2 reFix rfl).2.2⟩

theorem getPoolAllFail_spec (cfg : SqlConfig) (jitter : Nat → ℚ)
    (errMsg : Nat → String) :
    ∀ k a, k = cfg.maxRetries - 1 - a → a ≤ cfg.maxRetries - 1 →
      getPoolAllFail cfg jitter errMsg a =
        { attempts := cfg.maxRetries - 1 - a + 1
          delays := (List.range' a (cfg.maxRetries - 1 - a)).map
              (fun i => retryDelay cfg i (jitter i))
          finalError :=
            { message := "DatabaseService: Failed to connect to database after " ++
                  toString cfg.maxRetries ++ " attempts. Last error: " ++
                  errMsg (cfg.maxRetries - 1)
              errorType := .CONNECTION_ERROR
              details := [("attempts", .nat cfg.maxRetries)] } } := by
  intro k
  induction k with
  | zero =>
    intro a hk ha
    have hcond : ¬(a < cfg.maxRetries - 1) := by omega
    have h0 : cfg.maxRetries - 1 - a = 0 := hk.symm
    have ha2 : a = cfg.maxRetries - 1 := by omega
    rw [getPoolAllFail]
    rw [if_neg hcond, h0, ha2]
    rfl
  | succ k ih =>
    intro a hk ha
    have hcond : a < cfg.maxRetries - 1 := by omega
    have hk2 : cfg.maxRetries - 1 - (a + 1) = k := by omega
    have ih2 := ih (a + 1) hk2.symm (by omega)
    rw [getPoolAllFail]
    rw [if_pos hcond]
    simp only [ih2, ← hk, hk2]
    rw [List.range'_succ]
    rfl

/-- C3 (amended): with `maxRetries = N ≥ 1` and a connection failing on
every attempt, `getPool()` makes exactly N connect attempts; the i-th
inter-attempt delay equals `min(initialRetryDelay * 2 ^ i + jitter,
maxRetryDelay)` with i running from 0, each delay is capped at
`maxRetryDelay`, and the delays are non-decreasing whenever
`initialRetryDelay` is at least the 1000 ms jitter amplitude (the jitter of
`Math.random() * 1000` lies in `[0, 1000)`); after the N-th failure a
`ConnectionError` wrapping the last failure is thrown with
`details.attempts = N`. -/
theorem getPool_retry_exhaustion (cfg : SqlConfig) (jitter : Nat → ℚ)
    (errMsg : Nat → String) (hN : 1 ≤ cfg.maxRetries) :
    (getPoolAllFail cfg jitter errMsg 0).attempts = cfg.maxRetries
  ∧ (getPoolAllFail cfg jitter errMsg 0).delays =
      (List.range (cfg.maxRetries - 1)).map (fun i => retryDelay cfg i (jitter i))
  ∧ (∀ d ∈ (getPoolAllFail cfg jitter errMsg 0).delays, d ≤ (cfg.maxRetryDelay : ℚ))
  ∧ (getPoolAllFail cfg jitter errMsg 0).finalError.errorType = .CONNECTION_ERROR
  ∧ (getPoolAllFail cfg jitter errMsg 0).finalError.message =
      "DatabaseService: Failed to connect to database after " ++
        toString cfg.maxRetries ++ " attempts. Last error: " ++ errMsg (cfg.maxRetries - 1)
  ∧ ("attempts", DetailValue.nat cfg.maxRetries) ∈
      (getPoolAllFail cfg jitter errMsg 0).finalError.details
  ∧ ((∀ i, 0 ≤ jitter i ∧ jitter i < 1000) → 1000 ≤ cfg.initialRetryDelay →
      (getPoolAllFail cfg jitter errMsg 0).delays.Pairwise (· ≤ ·)) := by
  have hspec := getPoolAllFail_spec cfg jitter errMsg (cfg.maxRetries - 1 - 0) 0 rfl
    (Nat.zero_le _)
  refine ⟨?_, ?_, ?_, ?_, ?_, ?_, ?_⟩
  · rw [hspec]
    show cfg.maxRetries - 1 - 0 + 1 = cfg.maxRetries
    omega
  · rw [hspec]
    show (List.range' 0 (cfg.maxRetries - 1 - 0)).map (fun i => retryDelay cfg i (jitter i)) =
      (List.range (cfg.maxRetries - 1)).map (fun i => retryDelay cfg i (jitter i))
    rw [List.range_eq_range', Nat.sub_zero]
  · rw [hspec]
    intro d hd
    obtain ⟨i, -, rfl⟩ := List.mem_map.mp hd
    exact min_le_right _ _
  · rw [hspec]
  · rw [hspec]
  · rw [hspec]
    simp
  · intro hj hd
    rw [hspec]
    show ((List.range' 0 (cfg.maxRetries - 1 - 0)).map
        (fun i => retryDelay cfg i (jitter i))).Pairwise (· ≤ ·)
    rw [List.pairwise_map]
    have hmono : ∀ i j : Nat, i < j →
        retryDelay cfg i (jitter i) ≤ retryDelay cfg j (jitter j) := by
      intro i j hij
      unfold retryDelay
      refine min_le_min ?_ le_rfl
      have h1 : jitter i < 1000 := (hj i).2
      have h2 : 0 ≤ jitter j := (hj j).1
      have h3 : (1000 : ℚ) ≤ (cfg.initialRetryDelay : ℚ) := by
        exact_mod_cast hd
      have hone : (1 : ℚ) ≤ 2 ^ i := by
        calc (1 : ℚ) = 2 ^ 0 := by norm_num
          _ ≤ 2 ^ i := by
            apply pow_le_pow_right₀ (by norm_num) (Nat.zero_le i)
      have hbase : (1000 : ℚ) ≤ (cfg.initialRetryDelay : ℚ) * 2 ^ i := by
        calc (1000 : ℚ) ≤ (cfg.initialRetryDelay : ℚ) := h3
          _ = (cfg.initialRetryDelay : ℚ) * 1 := by ring
          _ ≤ (cfg.initialRetryDelay : ℚ) * 2 ^ i := by
            apply mul_le_mul_of_nonneg_left hone
            positivity
      have hpow : (cfg.initialRetryDelay : ℚ) * 2 ^ i * 2 ≤
          (cfg.initialRetryDelay : ℚ) * 2 ^ j := by
        have hpp : (2 : ℚ) ^ (i + 1) ≤ 2 ^ j := by
          apply pow_le_pow_right₀ (by norm_num) (by omega)
        calc (cfg.initialRetryDelay : ℚ) * 2 ^ i * 2
            = (cfg.initialRetryDelay : ℚ) * 2 ^ (i + 1) := by ring
          _ ≤ (cfg.initialRetryDelay : ℚ) * 2 ^ j := by
            apply mul_le_mul_of_nonneg_left hpp
            positivity
      linarith
    have hlt := List.pairwise_lt_range' 0 (cfg.maxRetries - 1)
    exact hlt.imp (fun hab => hmono _ _ hab)

theorem getPool_retry_exhaustion_witness :
    (getPoolAllFail cfgFix (fun _ => (500 : ℚ)) (fun _ => "connect ECONNREFUSED") 0).attempts = 3
  ∧ (getPoolAllFail cfgFix (fun _ => (500 : ℚ))
      (fun _ => "connect ECONNREFUSED") 0).delays.Pairwise (· ≤ ·)
  ∧ ("attempts", DetailValue.nat 3) ∈
      (getPoolAllFail cfgFix (fun _ => (500 : ℚ))
        (fun _ => "connect ECONNREFUSED") 0).finalError.details := by
  have h := getPool_retry_exhaustion cfgFix (fun _ => (500 : ℚ))
    (fun _ => "connect ECONNREFUSED") (by decide)
  refine ⟨?_, ?_, ?_⟩
  · rw [h.1]
    decide
  · exact h.2.2.2.2.2.2 (fun i => by norm_num) (by norm_num [cfgFix])
  · exact h.2.2.2.2.2.1

/-- C3 counterexample: the claimed non-decreasing property of the backoff
delays fails on the code as written: with `initialRetryDelay = 100`,
`maxRetryDelay = 10000`, `maxRetries = 3` and jitter values 950 then 0
(both legal values of `Math.random() * 1000`), the two delays are 1050 ms
followed by 200 ms — strictly decreasing. -/
theorem getPool_backoff_not_monotone :
    (getPoolAllFail cfgC3 jitC3 (fun _ => "connect ECONNREFUSED") 0).delays =
      [(1050 : ℚ), 200]
  ∧ ¬ (getPoolAllFail cfgC3 jitC3
        (fun _ => "connect ECONNREFUSED") 0).delays.Pairwise (· ≤ ·)
  ∧ (∀ i, 0 ≤ jitC3 i ∧ jitC3 i < 1000) := by
  have h := getPoolAllFail_spec cfgC3 jitC3 (fun _ => "connect ECONNREFUSED")
    (cfgC3.maxRetries - 1 - 0) 0 rfl (Nat.zero_le _)
  have hdel : (getPoolAllFail cfgC3 jitC3 (fun _ => "connect ECONNREFUSED") 0).delays =
      [(1050 : ℚ), 200] := by
    rw [h]
    show (List.range' 0 (cfgC3.maxRetries - 1)).map
        (fun i => retryDelay cfgC3 i (jitC3 i)) = [(1050 : ℚ), 200]
    have hmr : cfgC3.maxRetries - 1 = 2 := by decide
    rw [hmr]
    show [retryDelay cfgC3 0 (jitC3 0), retryDelay cfgC3 1 (jitC3 1)] = [(1050 : ℚ), 200]
    have hj0 : jitC3 0 = 950 := rfl
    have hj1 : jitC3 1 = 0 := rfl
    have hd0 : retryDelay cfgC3 0 (jitC3 0) = 1050 := by
      rw [hj0]
      unfold retryDelay
      norm_num [cfgC3, cfgFix]
    have hd1 : retryDelay cfgC3 1 (jitC3 1) = 200 := by
      rw [hj1]
      unfold retryDelay
      norm_num [cfgC3, cfgFix]
    rw [hd0, hd1]
  refine ⟨hdel, ?_, ?_⟩
  · rw [hdel]
    intro hpw
    have h12 : (1050 : ℚ) ≤ 200 := by
      have := List.pairwise_cons.mp hpw
      exact this.1 200 (by simp)
    linarith
  · intro i
    by_cases hi : i = 0
    · rw [hi]
      constructor
      · norm_num [jitC3]
      · norm_num [jitC3]
    · constructor
      · simp only [jitC3, if_neg hi]
        norm_num
      · simp only [jitC3, if_neg hi]
        norm_num

end McpMssql
